import Mathlib

/-!
Verification of the `anypay` client library (`anypay/api.py`,
`anypay/models/*.py`, `anypay/exceptions.py`) against its specification.

The Python code is shallowly embedded: Python values appearing as request
parameters are modelled by `PVal`, parsed JSON response bodies by `JVal`,
Python exceptions by `PyError`, and Python dicts by ordered association
lists with insert-overwrite semantics (`pyDictInsert`).  The hash
primitives `hashlib.sha256` / `hashlib.md5` are external to the repository
and are taken as abstract functions from byte sequences to hex strings.
-/

namespace AnyPay

/-- Python values that occur as request parameters in this library:
`None`, `int`, `str` and `bool` (floats are not needed by any claim). -/
inductive PVal where
  | pNone : PVal
  | pInt : Int → PVal
  | pStr : String → PVal
  | pBool : Bool → PVal
deriving DecidableEq, Repr

/-- Python `str(v)` rendering of a `PVal` (`str(None) = "None"`). -/
def pvStr : PVal → String
  | .pNone => "None"
  | .pInt n => toString n
  | .pStr s => s
  | .pBool b => if b then "True" else "False"

/-- Python truthiness of a `PVal`. -/
def pvTruthy : PVal → Bool
  | .pNone => false
  | .pInt n => n ≠ 0
  | .pStr s => s ≠ ""
  | .pBool b => b

/-- Python `a or b`: returns `a` when `a` is truthy, else `b`. -/
def pyOr (a b : PVal) : PVal :=
  if pvTruthy a then a else b

/-- Parsed JSON values, as produced by `response.json()`. -/
inductive JVal where
  | jNull : JVal
  | jBool : Bool → JVal
  | jInt : Int → JVal
  | jStr : String → JVal
  | jArr : List JVal → JVal
  | jObj : List (String × JVal) → JVal

/-- Python truthiness of a JSON-parsed value (empty dict/list/str falsy). -/
def jTruthy : JVal → Bool
  | .jNull => false
  | .jBool b => b
  | .jInt n => n ≠ 0
  | .jStr s => s ≠ ""
  | .jArr a => !a.isEmpty
  | .jObj f => !f.isEmpty

/-- Python exceptions this library can raise locally.
`apiError code message` is `AnyPayAPIError` carrying the remote error's
`code` and `message` fields verbatim. -/
inductive PyError where
  | keyError : PyError
  | typeError : PyError
  | valueError : PyError
  | attributeError : PyError
  | validationError : PyError
  | apiError : JVal → JVal → PyError

/-- Dictionary lookup on an association list (first match), modelling
Python `d[k]` / `d.get(k)` on a dict represented in insertion order. -/
def alookup {α : Type} : List (String × α) → String → Option α
  | [], _ => none
  | (k, v) :: rest, key => if k = key then some v else alookup rest key

/-- Python dict item assignment `m[k] = v` on the association-list model:
overwrite in place when the key exists, append otherwise. -/
def pyDictInsert (m : List (String × PVal)) (k : String) (v : PVal) :
    List (String × PVal) :=
  if m.any (fun p => p.1 = k) then
    m.map (fun p => if p.1 = k then (k, v) else p)
  else
    m ++ [(k, v)]

/-- Building a Python dict from an initial literal part followed by a
`**kwargs`-style splat: sequential insertion with overwrite. -/
def pyDictExtend (m : List (String × PVal)) (l : List (String × PVal)) :
    List (String × PVal) :=
  l.foldl (fun acc p => pyDictInsert acc p.1 p.2) m

/-- `v is not None`, the filter applied to query parameters. -/
def isNotNone : PVal → Bool
  | .pNone => false
  | _ => true

/-- Scanner state for `%`-formatting against a mapping: scanning literal
characters, just after a `%`, inside a `%(key` run, or just after the
closing `)` awaiting the `s` conversion. -/
inductive FmtMode where
  | lit : FmtMode
  | pct : FmtMode
  | key : List Char → FmtMode
  | close : List Char → FmtMode

/-- Python `%`-formatting of a template against a mapping, as used by
`template % params` in `_form_signature`: each `%(key)s` placeholder is
replaced by `str(params[key])`; a key absent from the mapping is a
`KeyError`, an incomplete or non-`%(key)s` placeholder is a `ValueError`.
(The library's templates consist only of literal characters and `%(key)s`
placeholders, so no other conversion is modelled.) -/
def pctFormatMapAux (params : List (String × PVal)) :
    FmtMode → List Char → Except PyError String
  | .lit, [] => .ok ""
  | .lit, '%' :: rest => pctFormatMapAux params .pct rest
  | .lit, c :: rest =>
    (pctFormatMapAux params .lit rest).map (fun t => c.toString ++ t)
  | .pct, '(' :: rest => pctFormatMapAux params (.key []) rest
  | .pct, _ => .error .valueError
  | .key acc, ')' :: rest => pctFormatMapAux params (.close acc) rest
  | .key acc, c :: rest => pctFormatMapAux params (.key (acc ++ [c])) rest
  | .key _, [] => .error .valueError
  | .close acc, 's' :: rest =>
    match alookup params (String.mk acc) with
    | some v => (pctFormatMapAux params .lit rest).map (fun t => pvStr v ++ t)
    | none => .error .keyError
  | .close _, _ => .error .valueError

/-- `template % params` for a `%(key)s`-style template. -/
def pctFormatMap (params : List (String × PVal)) (template : List Char) :
    Except PyError String :=
  pctFormatMapAux params .lit template

/-- Python `%`-formatting of a template against a tuple of strings, as in
`self.API_URL % (endpoint, self.api_id)`: each `%s` consumes one argument;
an argument-count mismatch is an error (`none`). -/
def pctFormatS : List Char → List String → Option String
  | [], [] => some ""
  | [], _ :: _ => none
  | '%' :: 's' :: rest, a :: args => (pctFormatS rest args).map (fun t => a ++ t)
  | '%' :: 's' :: _, [] => none
  | c :: rest, args => (pctFormatS rest args).map (fun t => c.toString ++ t)

/-- `AnyPayAPI._form_signature` (`api.py` lines 65-87): select
`hashlib.sha256` unless `use_md5`, hash the UTF-8 encoding of
`method + self.api_id + template % params + self.api_key`, return the hex
digest.  The hash primitives are abstract parameters (`hashlib` is outside
the repository); each maps a byte sequence to its lowercase hex digest. -/
def formSignature (sha256hex md5hex : ByteArray → String)
    (api_id api_key : String) (method template : String)
    (params : List (String × PVal)) (use_md5 : Bool) : Except PyError String :=
  (pctFormatMap params template.data).map (fun sub =>
    (if use_md5 then md5hex else sha256hex)
      (String.toUTF8 (method ++ api_id ++ sub ++ api_key)))

/-- `AnyPayAPI.API_URL`. -/
def API_URL : String := "https://anypay.io/api/%s/%s"

/-- `AnyPayAPI.HEADERS`. -/
def HEADERS : List (String × String) :=
  [("Accept", "application/json"), ("Content-Type", "multipart/form-data")]

/-- The persistent `httpx.AsyncClient` handle. -/
structure Session where
  headers : List (String × String)
  timeout : Nat
deriving DecidableEq, Repr

/-- The session created in `AnyPayAPI.__init__`:
`httpx.AsyncClient(headers=self.HEADERS, timeout=60)`. -/
def initSession : Session := ⟨HEADERS, 60⟩

/-- The credential state held by an `AnyPayAPI` instance. -/
structure ApiSelf where
  api_id : String
  api_key : String
  project_id : PVal
  project_secret : PVal
  use_md5 : Bool

/-- An outgoing HTTP GET request as constructed by the dispatchers. -/
structure HttpRequest where
  url : String
  query : List (String × PVal)
  headers : List (String × String)
  timeout : Nat

/-- The query dict built by the sync dispatcher `_make_request`
(lines 123-132): `{'sign': <sig>, **{k: v for k, v in params.items() if v
is not None}}` — dict-literal semantics, so a later `sign` key from
`params` overwrites the computed entry. -/
def queryParamsSync (sign : String) (params : List (String × PVal)) :
    List (String × PVal) :=
  pyDictExtend [("sign", PVal.pStr sign)]
    (params.filter (fun p => isNotNone p.2))

/-- The query dict built by the async dispatcher `_make_request_async`
(lines 160-169), textually a second copy of the same comprehension. -/
def queryParamsAsync (sign : String) (params : List (String × PVal)) :
    List (String × PVal) :=
  pyDictExtend [("sign", PVal.pStr sign)]
    (params.filter (fun p => isNotNone p.2))

/-- `AnyPayAPIError.__init__` (`anypay/exceptions.py`): reads
`exception['message']`, then `exception['code']`; subscripting a
non-mapping is a `TypeError`, a mapping missing either key is a
`KeyError`; otherwise the typed API error carries both verbatim. -/
def anyPayAPIErrorOf : JVal → PyError
  | .jObj fields =>
    match alookup fields "message" with
    | none => .keyError
    | some m =>
      match alookup fields "code" with
      | none => .keyError
      | some c => .apiError c m
  | _ => .typeError

/-- `AnyPayAPI._check_response` (lines 90-103): raise iff the parsed
response mapping contains an `'error'` key. -/
def checkResponseRaises (response : List (String × JVal)) : Option PyError :=
  match alookup response "error" with
  | some e => some (anyPayAPIErrorOf e)
  | none => none

/-- The response phase of the sync dispatcher (lines 137-140):
`self._check_response(response); return response['result']`. -/
def responseTailSync (response : List (String × JVal)) : Except PyError JVal :=
  match checkResponseRaises response with
  | some e => .error e
  | none =>
    match alookup response "result" with
    | some r => .ok r
    | none => .error .keyError

/-- The response phase of the async dispatcher (lines 172-175), textually
a second copy of the same logic. -/
def responseTailAsync (response : List (String × JVal)) : Except PyError JVal :=
  match checkResponseRaises response with
  | some e => .error e
  | none =>
    match alookup response "result" with
    | some r => .ok r
    | none => .error .keyError

/-- Request construction of the sync dispatcher `_make_request`
(lines 106-135): `httpx.get(self.API_URL % (endpoint, self.api_id),
params={'sign': ..., **non-null}, headers=self.HEADERS, timeout=60)`. -/
def makeRequestSyncReq (sha256hex md5hex : ByteArray → String) (self : ApiSelf)
    (endpoint sign_template : String) (params : List (String × PVal)) :
    Except PyError HttpRequest :=
  match pctFormatS API_URL.data [endpoint, self.api_id] with
  | none => .error .typeError
  | some url =>
    match formSignature sha256hex md5hex self.api_id self.api_key endpoint
        sign_template params self.use_md5 with
    | .error e => .error e
    | .ok sig => .ok ⟨url, queryParamsSync sig params, HEADERS, 60⟩

/-- Request construction of the async dispatcher `_make_request_async`
(lines 143-170): `self.session.get(self.API_URL % (endpoint, self.api_id),
params={'sign': ..., **non-null})`, headers and timeout coming from the
session handle. -/
def makeRequestAsyncReq (sha256hex md5hex : ByteArray → String)
    (session : Session) (self : ApiSelf)
    (endpoint sign_template : String) (params : List (String × PVal)) :
    Except PyError HttpRequest :=
  match pctFormatS API_URL.data [endpoint, self.api_id] with
  | none => .error .typeError
  | some url =>
    match formSignature sha256hex md5hex self.api_id self.api_key endpoint
        sign_template params self.use_md5 with
    | .error e => .error e
    | .ok sig => .ok ⟨url, queryParamsAsync sig params, session.headers, session.timeout⟩

/-- The `Bill` pydantic model (`anypay/models/bill.py`): field `id` is
populated from the aliased JSON key `pay_id`, field `url` from
`payment_url`; `transaction_id` is optional (default `None`) and `status`
defaults to `'waiting'`. -/
structure Bill where
  id : Int
  transaction_id : Option Int
  status : String
  url : String
deriving DecidableEq, Repr

/-- Constructing a `Bill` from a JSON mapping, following pydantic
validation of `anypay/models/bill.py`: aliased required fields `pay_id`
and `payment_url`, optional `transaction_id` (accepting JSON null),
`status` defaulting to `'waiting'`; a missing or ill-typed required field
is a validation error. -/
def Bill.fromJson (j : List (String × JVal)) : Except PyError Bill :=
  match alookup j "pay_id" with
  | some (.jInt n) =>
    match alookup j "payment_url" with
    | some (.jStr u) =>
      match
        (match alookup j "transaction_id" with
         | none => Except.ok (none : Option Int)
         | some .jNull => Except.ok none
         | some (.jInt t) => Except.ok (some t)
         | some _ => Except.error PyError.validationError : Except PyError (Option Int)) with
      | .error e => .error e
      | .ok tid =>
        match
          (match alookup j "status" with
           | none => Except.ok "waiting"
           | some (.jStr s) => Except.ok s
           | some _ => Except.error PyError.validationError : Except PyError String) with
        | .error e => .error e
        | .ok st => .ok ⟨n, tid, st, u⟩
    | _ => .error .validationError
  | _ => .error .validationError

/-- The sign template string appearing in `create_payment` (line 311). -/
def CREATE_PAYMENT_SIGN_TEMPLATE : String :=
  "%(project_id)s%(amount)s%(currency)s%(desc)s%(method)s"

/-- Binding of positional arguments against the parameter list of
`_make_request_async(self, endpoint, sign_template='', **params)`:
`**params` accepts keyword arguments only, so more than two positional
arguments (after `self`) is a `TypeError`. -/
def bindMakeRequestAsyncPositional (positional : List String) :
    Except PyError (String × String) :=
  match positional with
  | [endpoint] => .ok (endpoint, "")
  | [endpoint, tmpl] => .ok (endpoint, tmpl)
  | _ => .error .typeError

/-- The positional arguments `create_payment` passes to
`_make_request_async` (lines 308-311): `self.API_URL`,
`'create-payment'`, and the sign template string. -/
def createPaymentPositionalArgs : List String :=
  [API_URL, "create-payment", CREATE_PAYMENT_SIGN_TEMPLATE]

/-- The effective `project_id` sent by `get_commissions` (line 247):
`project_id or self.project_id`. -/
def getCommissionsProjectId (project_id self_project_id : PVal) : PVal :=
  pyOr project_id self_project_id

/-- The effective `project_id` computed by `create_payment` (line 312):
`project_id or self.project_id`. -/
def createPaymentProjectId (project_id self_project_id : PVal) : PVal :=
  pyOr project_id self_project_id

/-- The effective `project_id` sent by `get_payments` (line 352):
`project_id or self.project_id`. -/
def getPaymentsProjectId (project_id self_project_id : PVal) : PVal :=
  pyOr project_id self_project_id

/-- Python `.values()` of a dict (an `AttributeError` on non-dicts). -/
def jValuesList : JVal → Except PyError (List JVal)
  | .jObj fields => .ok (fields.map (fun p => p.2))
  | _ => .error .attributeError

/-- The return expression of `get_payments` (lines 358-362):
`[Payment(**p) for p in result['payments'].values()] if result['payments']
else []`.  The conditional subscripts `result['payments']` first, so an
absent key is a `KeyError`; a falsy value yields `[]`.  The truthy branch
returns the collection's raw values (the per-record `Payment(**p)`
validation is not needed by any claim). -/
def getPaymentsTail (result : List (String × JVal)) : Except PyError (List JVal) :=
  match alookup result "payments" with
  | none => .error .keyError
  | some v => if jTruthy v then jValuesList v else .ok []

/-- The return expression of `get_payouts` (lines 431-435), same shape
over `result['payouts']`. -/
def getPayoutsTail (result : List (String × JVal)) : Except PyError (List JVal) :=
  match alookup result "payouts" with
  | none => .error .keyError
  | some v => if jTruthy v then jValuesList v else .ok []

/-- The SCI signature computed by `create_bill` (lines 503-530): MD5 over
`'%s:%s:%s:%s:%s' % (currency, amount, project_secret or
self.project_secret, project_id or self.project_id, pay_id)` when
`use_md5`, else SHA-256 over the eight colon-joined fields
`project_id:pay_id:amount:currency:description:success_url:fail_url:
project_secret`; `%s` renders each value with `str`, so `None` becomes
the literal string `"None"`. -/
def createBillSign (sha256hex md5hex : ByteArray → String) (self : ApiSelf)
    (pay_id : Int) (amount : PVal) (project_id project_secret : PVal)
    (currency description : String) (success_url fail_url : PVal)
    (use_md5 : Bool) : String :=
  if use_md5 then
    md5hex (String.toUTF8
      (currency ++ ":" ++ pvStr amount ++ ":"
        ++ pvStr (pyOr project_secret self.project_secret) ++ ":"
        ++ pvStr (pyOr project_id self.project_id) ++ ":"
        ++ pvStr (PVal.pInt pay_id)))
  else
    sha256hex (String.toUTF8
      (pvStr (pyOr project_id self.project_id) ++ ":"
        ++ pvStr (PVal.pInt pay_id) ++ ":"
        ++ pvStr amount ++ ":" ++ currency ++ ":" ++ description ++ ":"
        ++ pvStr success_url ++ ":" ++ pvStr fail_url ++ ":"
        ++ pvStr (pyOr project_secret self.project_secret)))

/-- The named entries of the `params` dict literal of `create_bill`
(lines 532-544), in source order, ending with `'sign': signature`. -/
def createBillBaseParams (self : ApiSelf) (pay_id : Int)
    (amount project_id : PVal) (currency description : String)
    (method email phone success_url fail_url lang : PVal)
    (signature : String) : List (String × PVal) :=
  [("merchant_id", pyOr project_id self.project_id),
   ("pay_id", PVal.pInt pay_id),
   ("amount", amount),
   ("currency", PVal.pStr currency),
   ("desc", PVal.pStr description),
   ("method", method),
   ("email", email),
   ("phone", phone),
   ("success_url", success_url),
   ("fail_url", fail_url),
   ("lang", lang),
   ("sign", PVal.pStr signature)]

/-- The `params` dict literal of `create_bill` (lines 532-546):
named entries, then `'sign': signature`, then `**kwargs` (dict-literal
semantics: a colliding `kwargs` key overwrites the named entry). -/
def createBillParams (self : ApiSelf) (pay_id : Int)
    (amount project_id : PVal) (currency description : String)
    (method email phone success_url fail_url lang : PVal)
    (signature : String) (kwargs : List (String × PVal)) :
    List (String × PVal) :=
  pyDictExtend
    (createBillBaseParams self pay_id amount project_id currency description
      method email phone success_url fail_url lang signature)
    kwargs

/-- The query actually sent by `create_bill` (lines 547-555): the params
dict stripped of `None`-valued entries. -/
def createBillSentParams (self : ApiSelf) (pay_id : Int)
    (amount project_id : PVal) (currency description : String)
    (method email phone success_url fail_url lang : PVal)
    (signature : String) (kwargs : List (String × PVal)) :
    List (String × PVal) :=
  (createBillParams self pay_id amount project_id currency description
      method email phone success_url fail_url lang signature kwargs).filter
    (fun p => isNotNone p.2)

/-- A full `create_bill` run (lines 463-557): compute the signature,
build and strip the params, issue the GET against the fixed merchant URL,
and return `Bill(pay_id=pay_id, payment_url=str(response.url))`.  The
final URL is produced by the transport from the sent query, abstracted as
`respUrl`; the `Bill` construction goes through the pydantic validator. -/
def createBillRun (sha256hex md5hex : ByteArray → String) (self : ApiSelf)
    (pay_id : Int) (amount : PVal) (project_id project_secret : PVal)
    (currency description : String)
    (method email phone success_url fail_url lang : PVal)
    (use_md5 : Bool) (kwargs : List (String × PVal))
    (respUrl : List (String × PVal) → String) : Except PyError Bill :=
  let signature := createBillSign sha256hex md5hex self pay_id amount
    project_id project_secret currency description success_url fail_url use_md5
  let sent := createBillSentParams self pay_id amount project_id currency
    description method email phone success_url fail_url lang signature kwargs
  Bill.fromJson [("pay_id", JVal.jInt pay_id),
                 ("payment_url", JVal.jStr (respUrl sent))]

/-- Whether a dispatcher outcome is the typed `AnyPayAPIError`. -/
def isApiError : Except PyError JVal → Bool
  | .error (.apiError _ _) => true
  | _ => false

/-! Association-list dictionary lemmas used by the claims about query
construction. -/

theorem alookup_eq_none {α : Type} {l : List (String × α)} {k : String}
    (h : k ∉ l.map Prod.fst) : alookup l k = none := by
  induction l with
  | nil => rfl
  | cons p rest ih =>
    simp only [List.map_cons, List.mem_cons, not_or] at h
    simp only [alookup]
    rw [if_neg (fun hpk => h.1 hpk.symm)]
    exact ih h.2

theorem alookup_append {α : Type} (m l : List (String × α)) (k : String) :
    alookup (m ++ l) k =
      match alookup m k with
      | some v => some v
      | none => alookup l k := by
  induction m with
  | nil => simp [alookup]
  | cons p rest ih =>
    by_cases h : p.1 = k
    · simp [alookup, h]
    · simp only [List.cons_append, alookup, if_neg h]
      exact ih

theorem pyDictInsert_of_not_mem {m : List (String × PVal)} {k : String}
    (v : PVal) (h : k ∉ m.map Prod.fst) :
    pyDictInsert m k v = m ++ [(k, v)] := by
  have hany : m.any (fun p => p.1 = k) = false := by
    simp only [List.any_eq_false, decide_eq_true_eq]
    intro p hp hpk
    exact h (List.mem_map.2 ⟨p, hp, hpk⟩)
  simp [pyDictInsert, hany]

theorem alookup_overwrite_ne (m : List (String × PVal)) {k k' : String}
    (v : PVal) (h : k' ≠ k) :
    alookup (m.map (fun p => if p.1 = k' then (k', v) else p)) k
      = alookup m k := by
  induction m with
  | nil => rfl
  | cons p rest ih =>
    simp only [List.map_cons]
    by_cases hp : p.1 = k'
    · rw [if_pos hp]
      simp only [alookup]
      rw [if_neg h, if_neg (show ¬ p.1 = k by rw [hp]; exact h)]
      exact ih
    · rw [if_neg hp]
      simp only [alookup]
      by_cases hk : p.1 = k
      · rw [if_pos hk, if_pos hk]
      · rw [if_neg hk, if_neg hk]
        exact ih

theorem alookup_pyDictInsert_ne (m : List (String × PVal)) {k k' : String}
    (v : PVal) (h : k' ≠ k) :
    alookup (pyDictInsert m k' v) k = alookup m k := by
  unfold pyDictInsert
  by_cases hmem : m.any (fun p => p.1 = k') = true
  · rw [if_pos hmem]
    exact alookup_overwrite_ne m v h
  · rw [if_neg hmem, alookup_append]
    cases halm : alookup m k with
    | some v' => rfl
    | none => simp [alookup, h]

theorem alookup_pyDictExtend_not_mem {l : List (String × PVal)} {k : String}
    (m : List (String × PVal)) (h : k ∉ l.map Prod.fst) :
    alookup (pyDictExtend m l) k = alookup m k := by
  induction l generalizing m with
  | nil => rfl
  | cons p rest ih =>
    simp only [List.map_cons, List.mem_cons, not_or] at h
    show alookup (pyDictExtend (pyDictInsert m p.1 p.2) rest) k = alookup m k
    rw [ih (pyDictInsert m p.1 p.2) h.2]
    exact alookup_pyDictInsert_ne m p.2 (fun hpk => h.1 hpk.symm)

theorem keys_pyDictInsert_nodup {m : List (String × PVal)} {k : String}
    (v : PVal) (h : (m.map Prod.fst).Nodup) :
    ((pyDictInsert m k v).map Prod.fst).Nodup := by
  unfold pyDictInsert
  by_cases hmem : m.any (fun p => p.1 = k) = true
  · rw [if_pos hmem]
    have hkeys : (m.map (fun p => if p.1 = k then (k, v) else p)).map Prod.fst
        = m.map Prod.fst := by
      rw [List.map_map]
      apply List.map_congr_left
      intro p _
      by_cases hp : p.1 = k
      · simp [hp]
      · simp [hp]
    rw [hkeys]
    exact h
  · rw [if_neg hmem, List.map_append]
    have hnot : k ∉ m.map Prod.fst := by
      intro hk
      apply hmem
      obtain ⟨p, hp, hpk⟩ := List.mem_map.1 hk
      exact List.any_eq_true.2 ⟨p, hp, by simp [hpk]⟩
    simp [List.nodup_append, h, List.disjoint_singleton, hnot]

theorem keys_pyDictExtend_nodup (l : List (String × PVal))
    {m : List (String × PVal)} (h : (m.map Prod.fst).Nodup) :
    ((pyDictExtend m l).map Prod.fst).Nodup := by
  induction l generalizing m with
  | nil => exact h
  | cons p rest ih =>
    exact ih (keys_pyDictInsert_nodup p.2 h)

theorem pyDictExtend_eq_append {l : List (String × PVal)} :
    ∀ m : List (String × PVal),
      (m.map Prod.fst ++ l.map Prod.fst).Nodup →
      pyDictExtend m l = m ++ l := by
  induction l with
  | nil => intro m _; simp [pyDictExtend]
  | cons p rest ih =>
    intro m h
    have h' : ((m.map Prod.fst ++ [p.1]) ++ rest.map Prod.fst).Nodup := by
      rw [List.append_assoc]
      simpa using h
    have hp : p.1 ∉ m.map Prod.fst := by
      rw [List.nodup_append] at h
      intro hmem
      exact h.2.2 hmem (by simp)
    show pyDictExtend (pyDictInsert m p.1 p.2) rest = m ++ p :: rest
    rw [pyDictInsert_of_not_mem p.2 hp]
    have := ih (m ++ [p]) (by simpa using h')
    rw [this, List.append_assoc]
    rfl

theorem alookup_filter_isNotNone {l : List (String × PVal)}
    (h : (l.map Prod.fst).Nodup) (k : String) :
    alookup (l.filter (fun p => isNotNone p.2)) k =
      match alookup l k with
      | some v => if isNotNone v then some v else none
      | none => none := by
  induction l with
  | nil => rfl
  | cons p rest ih =>
    simp only [List.map_cons, List.nodup_cons] at h
    by_cases hk : p.1 = k
    · by_cases hv : isNotNone p.2
      · simp [List.filter_cons, hv, alookup, hk]
      · have hrest : alookup rest k = none :=
          alookup_eq_none (hk ▸ h.1)
        have hfilter : alookup (rest.filter (fun p => isNotNone p.2)) k = none := by
          rw [ih h.2, hrest]
        simp only [List.filter_cons]
        rw [if_neg (by simpa using hv)]
        simp [alookup, hk, hfilter, hrest, hv]
    · by_cases hv : isNotNone p.2
      · simp only [List.filter_cons, if_pos (by simpa using hv), alookup,
          if_neg hk]
        exact ih h.2
      · simp only [List.filter_cons]
        rw [if_neg (by simpa using hv)]
        simp only [alookup, if_neg hk]
        exact ih h.2

/-- C1: `_form_signature` returns the hex digest of the selected hash
(SHA-256 when `use_md5` is false, MD5 when true) applied to the UTF-8
encoding of the concatenation of the endpoint name, `api_id`, the sign
template with every `%(key)s` placeholder substituted from the parameter
mapping, and `api_key`; in particular, for `api_id = "X"`,
`api_key = "Y"`, signing `"balance"` with the empty template and empty
params under SHA-256 yields the hex digest of `sha256("balanceXY")`. -/
theorem claim_C1 (sha256hex md5hex : ByteArray → String) :
    (∀ (api_id api_key method template : String)
        (params : List (String × PVal)) (use_md5 : Bool) (sub : String),
      pctFormatMap params template.data = .ok sub →
      formSignature sha256hex md5hex api_id api_key method template params
          use_md5
        = .ok ((if use_md5 then md5hex else sha256hex)
            (String.toUTF8 (method ++ api_id ++ sub ++ api_key))))
    ∧ formSignature sha256hex md5hex "X" "Y" "balance" "" [] false
        = .ok (sha256hex (String.toUTF8 "balanceXY")) := by
  constructor
  · intro api_id api_key method template params use_md5 sub h
    unfold formSignature
    rw [h]
    rfl
  · rfl

/-- C1 witness: signing `"commissions"` under template `%(project_id)s`
with `project_id = 42` succeeds and yields the digest of the concatenated
string. -/
theorem claim_C1_witness :
    formSignature (fun _ => "a1") (fun _ => "b2") "X" "Y" "commissions"
        "%(project_id)s" [("project_id", PVal.pInt 42)] false
      = .ok "a1" :=
  (claim_C1 (fun _ => "a1") (fun _ => "b2")).1 "X" "Y" "commissions"
    "%(project_id)s" [("project_id", PVal.pInt 42)] false "42" rfl

/-- C3 (code bug): `create_payment` passes three positional arguments —
`self.API_URL`, `'create-payment'` and the sign template — to
`_make_request_async`, whose parameter list accepts at most two positional
arguments besides `self` (the rest being keyword-only via `**params`), so
every `create_payment` call raises `TypeError` and never dispatches a
request to the `create-payment` endpoint. -/
theorem claim_C3_bug :
    bindMakeRequestAsyncPositional createPaymentPositionalArgs
      = .error .typeError
    ∧ createPaymentPositionalArgs
      = [API_URL, "create-payment", CREATE_PAYMENT_SIGN_TEMPLATE] :=
  ⟨rfl, rfl⟩

/-- C7: the blocking dispatcher `_make_request` and the non-blocking
dispatcher `_make_request_async` (run against the session built in
`__init__`) construct the same request — same URL, same query including
signature and omission of `None` parameters, same effective headers and
timeout — and map the same parsed response body to the same outcome. -/
theorem claim_C7 (sha256hex md5hex : ByteArray → String) (self : ApiSelf)
    (endpoint sign_template : String) (params : List (String × PVal)) :
    makeRequestSyncReq sha256hex md5hex self endpoint sign_template params
      = makeRequestAsyncReq sha256hex md5hex initSession self endpoint
          sign_template params
    ∧ ∀ response, responseTailSync response = responseTailAsync response := by
  constructor
  · rfl
  · intro response; rfl

/-- C8: `create_bill` never raises locally, whatever the project
credentials (including absent ones): for every combination of
`project_id` / `project_secret` it returns a `Bill` record carrying the
given `pay_id` and the transport's final URL, so a successful return does
not imply the credentials are valid. -/
theorem claim_C8 (sha256hex md5hex : ByteArray → String) (self : ApiSelf)
    (pay_id : Int) (amount project_id project_secret : PVal)
    (currency description : String)
    (method email phone success_url fail_url lang : PVal)
    (use_md5 : Bool) (kwargs : List (String × PVal))
    (respUrl : List (String × PVal) → String) :
    ∃ url : String,
      createBillRun sha256hex md5hex self pay_id amount project_id
          project_secret currency description method email phone success_url
          fail_url lang use_md5 kwargs respUrl
        = .ok ⟨pay_id, none, "waiting", url⟩ :=
  ⟨_, rfl⟩

/-- C9: constructing a `Bill` from a JSON mapping uses the aliased keys —
`pay_id` populates `id` and `payment_url` populates `url` — with
`transaction_id` optional (`none` when absent or JSON null) and `status`
defaulting to `'waiting'` when absent, and re-reading the fields returns
exactly the supplied values; the non-aliased key names `id` / `url` are
not accepted. -/
theorem claim_C9 (pid t : Int) (s u : String) :
    Bill.fromJson [("pay_id", .jInt pid), ("payment_url", .jStr u),
        ("transaction_id", .jInt t), ("status", .jStr s)]
      = .ok ⟨pid, some t, s, u⟩
    ∧ Bill.fromJson [("pay_id", .jInt pid), ("payment_url", .jStr u)]
      = .ok ⟨pid, none, "waiting", u⟩
    ∧ Bill.fromJson [("pay_id", .jInt pid), ("payment_url", .jStr u),
        ("transaction_id", .jNull)]
      = .ok ⟨pid, none, "waiting", u⟩
    ∧ Bill.fromJson [("id", .jInt pid), ("url", .jStr u)]
      = .error .validationError :=
  ⟨rfl, rfl, rfl, rfl⟩

/-- C10: in `get_commissions`, `create_payment` and `get_payments`, the
fallback `project_id or self.project_id` substitutes the instance-level
value whenever the caller-supplied value is falsy — in particular for
`project_id = 0` — and keeps the caller's value exactly when truthy. -/
theorem claim_C10 (p s : PVal) :
    (pvTruthy p = false →
      getCommissionsProjectId p s = s ∧ createPaymentProjectId p s = s
        ∧ getPaymentsProjectId p s = s)
    ∧ (pvTruthy p = true →
      getCommissionsProjectId p s = p ∧ createPaymentProjectId p s = p
        ∧ getPaymentsProjectId p s = p)
    ∧ getCommissionsProjectId (.pInt 0) s = s := by
  refine ⟨fun h => ?_, fun h => ?_, ?_⟩
  · simp [getCommissionsProjectId, createPaymentProjectId,
      getPaymentsProjectId, pyOr, h]
  · simp [getCommissionsProjectId, createPaymentProjectId,
      getPaymentsProjectId, pyOr, h]
  · rfl

/-- C10 witness: `project_id = 0` with instance `project_id = 7` sends 7
in all three facade methods. -/
theorem claim_C10_witness :
    getCommissionsProjectId (.pInt 0) (.pInt 7) = .pInt 7
    ∧ createPaymentProjectId (.pInt 0) (.pInt 7) = .pInt 7
    ∧ getPaymentsProjectId (.pInt 0) (.pInt 7) = .pInt 7 :=
  (claim_C10 (.pInt 0) (.pInt 7)).1 rfl

/-- C2 counterexample: a response whose `error` value is a mapping
without `code` / `message` raises a plain `KeyError` (inside
`AnyPayAPIError.__init__`), not the typed API error; and a response with
neither `error` nor `result` raises `KeyError` instead of returning a
value — so the claimed iff over all parsed response mappings fails. -/
theorem claim_C2_counterexample :
    responseTailSync [("error", JVal.jObj [])] = .error .keyError
    ∧ isApiError (responseTailSync [("error", JVal.jObj [])]) = false
    ∧ responseTailSync [("ok", JVal.jBool true)] = .error .keyError :=
  ⟨rfl, rfl, rfl⟩

/-- C2 (amended): for both dispatchers, a parsed response mapping with an
`error` key never yields a returned value; when the `error` value is a
mapping containing `code` and `message`, the typed API error carrying both
verbatim is raised; when `error` is absent and `result` present, the
`result` value is returned; and the typed API error is only raised when an
`error` key is present. -/
theorem claim_C2_amended (resp : List (String × JVal)) :
    (∀ e, alookup resp "error" = some e →
      ∀ r : JVal, responseTailSync resp ≠ .ok r
        ∧ responseTailAsync resp ≠ .ok r)
    ∧ (∀ ef c m, alookup resp "error" = some (.jObj ef) →
        alookup ef "code" = some c → alookup ef "message" = some m →
        responseTailSync resp = .error (.apiError c m)
          ∧ responseTailAsync resp = .error (.apiError c m))
    ∧ (∀ r, alookup resp "error" = none → alookup resp "result" = some r →
        responseTailSync resp = .ok r ∧ responseTailAsync resp = .ok r)
    ∧ (∀ c m, responseTailSync resp = .error (.apiError c m) →
        ∃ e, alookup resp "error" = some e) := by
  refine ⟨?_, ?_, ?_, ?_⟩
  · intro e he r
    have hs : responseTailSync resp = .error (anyPayAPIErrorOf e) := by
      simp [responseTailSync, checkResponseRaises, he]
    have ha : responseTailAsync resp = .error (anyPayAPIErrorOf e) := by
      simp [responseTailAsync, checkResponseRaises, he]
    exact ⟨by rw [hs]; exact fun hh => Except.noConfusion hh,
           by rw [ha]; exact fun hh => Except.noConfusion hh⟩
  · intro ef c m hef hc hm
    have herr : anyPayAPIErrorOf (.jObj ef) = .apiError c m := by
      simp [anyPayAPIErrorOf, hc, hm]
    constructor <;>
      simp [responseTailSync, responseTailAsync, checkResponseRaises, hef,
        herr]
  · intro r he hr
    constructor <;>
      simp [responseTailSync, responseTailAsync, checkResponseRaises, he, hr]
  · intro c m h
    cases he : alookup resp "error" with
    | some e => exact ⟨e, rfl⟩
    | none =>
      cases hr : alookup resp "result" with
      | some r =>
        simp [responseTailSync, checkResponseRaises, he, hr] at h
      | none =>
        simp [responseTailSync, checkResponseRaises, he, hr] at h

/-- C2 witness: a response with `error = {code: 401, message: "bad sign"}`
raises the typed API error carrying exactly those fields. -/
theorem claim_C2_witness :
    responseTailSync
        [("error", JVal.jObj [("code", JVal.jInt 401),
          ("message", JVal.jStr "bad sign")])]
      = .error (.apiError (JVal.jInt 401) (JVal.jStr "bad sign")) :=
  ((claim_C2_amended
      [("error", JVal.jObj [("code", JVal.jInt 401),
        ("message", JVal.jStr "bad sign")])]).2.1
    [("code", JVal.jInt 401), ("message", JVal.jStr "bad sign")]
    (JVal.jInt 401) (JVal.jStr "bad sign") rfl rfl rfl).1

/-- C4 counterexample: when the collection field is absent from the
result mapping entirely, `get_payments` / `get_payouts` do not return an
empty sequence — the subscript `result['payments']` / `result['payouts']`
raises `KeyError`. -/
theorem claim_C4_counterexample :
    getPaymentsTail [] = .error .keyError
    ∧ getPayoutsTail [] = .error .keyError
    ∧ getPaymentsTail [] ≠ .ok [] :=
  ⟨rfl, rfl, fun h => Except.noConfusion h⟩

/-- C4 (amended): when the collection field (`payments` / `payouts`) is
present but empty (falsy), `get_payments` / `get_payouts` return an empty
sequence without raising; when the field is absent from the result
entirely, they raise `KeyError`. -/
theorem claim_C4_amended (result : List (String × JVal)) :
    (∀ v, alookup result "payments" = some v → jTruthy v = false →
      getPaymentsTail result = .ok [])
    ∧ (alookup result "payments" = none →
      getPaymentsTail result = .error .keyError)
    ∧ (∀ v, alookup result "payouts" = some v → jTruthy v = false →
      getPayoutsTail result = .ok [])
    ∧ (alookup result "payouts" = none →
      getPayoutsTail result = .error .keyError) := by
  refine ⟨fun v hv ht => ?_, fun h => ?_, fun v hv ht => ?_, fun h => ?_⟩ <;>
    simp [getPaymentsTail, getPayoutsTail, *]

/-- C4 witness: a result whose `payments` / `payouts` collections are
empty mappings yields empty sequences. -/
theorem claim_C4_witness :
    getPaymentsTail [("payments", JVal.jObj []), ("payouts", JVal.jObj [])]
      = .ok []
    ∧ getPayoutsTail [("payments", JVal.jObj []), ("payouts", JVal.jObj [])]
      = .ok [] :=
  ⟨(claim_C4_amended [("payments", JVal.jObj []), ("payouts", JVal.jObj [])]).1
      (JVal.jObj []) rfl rfl,
   (claim_C4_amended
      [("payments", JVal.jObj []), ("payouts", JVal.jObj [])]).2.2.1
      (JVal.jObj []) rfl rfl⟩

/-- C5 counterexample: a parameter mapping carrying its own non-null
`sign` entry overwrites the computed signature in the dict literal
`{'sign': ..., **params}`, so the sent query is not the computed `sign`
entry together with the non-null parameters. -/
theorem claim_C5_counterexample :
    queryParamsSync "abc" [("sign", PVal.pStr "x")]
      = [("sign", PVal.pStr "x")]
    ∧ ("sign", PVal.pStr "abc") ∉ queryParamsSync "abc"
        [("sign", PVal.pStr "x")] :=
  ⟨rfl, by decide⟩

/-- C5 (amended): for every parameter mapping with distinct keys that
does not itself contain a `sign` key, both dispatchers send exactly the
computed `sign` entry followed by precisely the non-null entries of the
mapping, in order — every null-valued key omitted entirely and no
non-null key dropped. -/
theorem claim_C5_amended (sign : String) (params : List (String × PVal))
    (hnd : (params.map Prod.fst).Nodup)
    (hsign : "sign" ∉ params.map Prod.fst) :
    queryParamsSync sign params
      = ("sign", PVal.pStr sign) :: params.filter (fun p => isNotNone p.2)
    ∧ queryParamsAsync sign params
      = ("sign", PVal.pStr sign) :: params.filter (fun p => isNotNone p.2) := by
  have hsub : List.Sublist
      ((params.filter (fun p => isNotNone p.2)).map Prod.fst)
      (params.map Prod.fst) :=
    (List.filter_sublist params).map Prod.fst
  have hn' : ((params.filter (fun p => isNotNone p.2)).map Prod.fst).Nodup :=
    hnd.sublist hsub
  have hs' : "sign" ∉ (params.filter (fun p => isNotNone p.2)).map Prod.fst :=
    fun hmem => hsign (hsub.subset hmem)
  have happ : pyDictExtend [("sign", PVal.pStr sign)]
        (params.filter (fun p => isNotNone p.2))
      = [("sign", PVal.pStr sign)] ++ params.filter (fun p => isNotNone p.2) :=
    pyDictExtend_eq_append _ (by
      simp only [List.map_cons, List.map_nil, List.singleton_append,
        List.nodup_cons]
      exact ⟨hs', hn'⟩)
  constructor
  · unfold queryParamsSync
    rw [happ]
    rfl
  · unfold queryParamsAsync
    rw [happ]
    rfl

/-- C5 witness: with parameters `a = 1` and `b = None`, both dispatchers
send exactly `sign` and `a`. -/
theorem claim_C5_witness :
    queryParamsSync "s" [("a", PVal.pInt 1), ("b", PVal.pNone)]
      = [("sign", PVal.pStr "s"), ("a", PVal.pInt 1)]
    ∧ queryParamsAsync "s" [("a", PVal.pInt 1), ("b", PVal.pNone)]
      = [("sign", PVal.pStr "s"), ("a", PVal.pInt 1)] :=
  ⟨(claim_C5_amended "s" [("a", PVal.pInt 1), ("b", PVal.pNone)]
      (by decide) (by decide)).1,
   (claim_C5_amended "s" [("a", PVal.pInt 1), ("b", PVal.pNone)]
      (by decide) (by decide)).2⟩

/-- Shared step for the create-bill claims: as long as the pass-through
`kwargs` do not contain a `sign` key, the query sent by `create_bill`
carries exactly the computed signature under `sign`. -/
theorem alookup_createBillSentParams_sign (self : ApiSelf) (pay_id : Int)
    (amount project_id : PVal) (currency description : String)
    (method email phone success_url fail_url lang : PVal)
    (signature : String) (kwargs : List (String × PVal))
    (hsign : "sign" ∉ kwargs.map Prod.fst) :
    alookup (createBillSentParams self pay_id amount project_id currency
        description method email phone success_url fail_url lang signature
        kwargs) "sign"
      = some (.pStr signature) := by
  have hbasekeys : ((createBillBaseParams self pay_id amount project_id
      currency description method email phone success_url fail_url lang
      signature).map Prod.fst).Nodup := by
    show ((["merchant_id", "pay_id", "amount", "currency", "desc", "method",
      "email", "phone", "success_url", "fail_url", "lang", "sign"] :
        List String)).Nodup
    decide
  have h3 : ((pyDictExtend (createBillBaseParams self pay_id amount
      project_id currency description method email phone success_url fail_url
      lang signature) kwargs).map Prod.fst).Nodup :=
    keys_pyDictExtend_nodup kwargs hbasekeys
  have h1 : alookup (pyDictExtend (createBillBaseParams self pay_id amount
      project_id currency description method email phone success_url fail_url
      lang signature) kwargs) "sign"
      = alookup (createBillBaseParams self pay_id amount project_id currency
          description method email phone success_url fail_url lang signature)
          "sign" :=
    alookup_pyDictExtend_not_mem _ hsign
  have h2 : alookup (createBillBaseParams self pay_id amount project_id
      currency description method email phone success_url fail_url lang
      signature) "sign" = some (.pStr signature) := rfl
  unfold createBillSentParams createBillParams
  rw [alookup_filter_isNotNone h3, h1, h2]
  rfl

/-- C6 counterexample: a `create_bill` call whose extra pass-through
`kwargs` carry their own `sign` entry sends that value instead of the
computed signature, so the claim over every `create_bill` call fails. -/
theorem claim_C6_counterexample :
    createBillSign (fun _ => "sh") (fun _ => "md")
        ⟨"X", "Y", .pNone, .pNone, false⟩ 55 (.pInt 100) (.pInt 10)
        (.pStr "secret") "RUB" "Payment" .pNone .pNone true
      = "md"
    ∧ alookup (createBillSentParams ⟨"X", "Y", .pNone, .pNone, false⟩ 55
        (.pInt 100) (.pInt 10) "RUB" "Payment" .pNone .pNone .pNone .pNone
        .pNone .pNone "md" [("sign", PVal.pStr "evil")]) "sign"
      = some (.pStr "evil")
    ∧ ("evil" : String) ≠ "md" :=
  ⟨rfl, rfl, by decide⟩

/-- C6 (amended): for every `create_bill` call whose extra pass-through
`kwargs` do not contain a `sign` key, the `sign` value sent is the
computed SCI signature: MD5 over the colon-joined
`currency:amount:projectSecret:projectId:payId` when `use_md5` is true,
SHA-256 over the eight colon-joined fields otherwise, null values
rendering as the literal string `"None"`; in particular with
`use_md5 = true`, `currency = "RUB"`, `amount = 100`,
`projectSecret = "secret"`, `projectId = 10`, `payId = 55` the signature
is `md5("RUB:100:secret:10:55")`. -/
theorem claim_C6_amended (sha256hex md5hex : ByteArray → String)
    (self : ApiSelf) (pay_id : Int)
    (amount project_id project_secret : PVal)
    (currency description : String)
    (method email phone success_url fail_url lang : PVal)
    (use_md5 : Bool) (kwargs : List (String × PVal))
    (hsign : "sign" ∉ kwargs.map Prod.fst) :
    alookup (createBillSentParams self pay_id amount project_id currency
        description method email phone success_url fail_url lang
        (createBillSign sha256hex md5hex self pay_id amount project_id
          project_secret currency description success_url fail_url use_md5)
        kwargs) "sign"
      = some (.pStr (createBillSign sha256hex md5hex self pay_id amount
          project_id project_secret currency description success_url fail_url
          use_md5))
    ∧ (use_md5 = true →
        createBillSign sha256hex md5hex self pay_id amount project_id
            project_secret currency description success_url fail_url use_md5
          = md5hex (String.toUTF8
              (currency ++ ":" ++ pvStr amount ++ ":"
                ++ pvStr (pyOr project_secret self.project_secret) ++ ":"
                ++ pvStr (pyOr project_id self.project_id) ++ ":"
                ++ pvStr (PVal.pInt pay_id))))
    ∧ createBillSign sha256hex md5hex ⟨"X", "Y", .pNone, .pNone, false⟩ 55
        (.pInt 100) (.pInt 10) (.pStr "secret") "RUB" "Payment" .pNone .pNone
        true
      = md5hex (String.toUTF8 "RUB:100:secret:10:55") := by
  refine ⟨?_, fun h => ?_, ?_⟩
  · exact alookup_createBillSentParams_sign self pay_id amount project_id
      currency description method email phone success_url fail_url lang _
      kwargs hsign
  · rw [h]
    rfl
  · rfl

/-- C6 witness: with `use_md5 = true` and no extra `kwargs`, the sent
`sign` equals the MD5 digest of `"RUB:100:secret:10:55"`. -/
theorem claim_C6_witness :
    alookup (createBillSentParams ⟨"X", "Y", .pNone, .pNone, false⟩ 55
        (.pInt 100) (.pInt 10) "RUB" "Payment" .pNone .pNone .pNone .pNone
        .pNone .pNone
        (createBillSign (fun _ => "sh") (fun _ => "md")
          ⟨"X", "Y", .pNone, .pNone, false⟩ 55 (.pInt 100) (.pInt 10)
          (.pStr "secret") "RUB" "Payment" .pNone .pNone true)
        []) "sign"
      = some (.pStr "md") :=
  (claim_C6_amended (fun _ => "sh") (fun _ => "md")
    ⟨"X", "Y", .pNone, .pNone, false⟩ 55 (.pInt 100) (.pInt 10)
    (.pStr "secret") "RUB" "Payment" .pNone .pNone .pNone .pNone .pNone
    .pNone true [] (by decide)).1

end AnyPay

